import Mathlib

/-!
A shallow embedding of the AST representation layer of the `tiny` compiler
front end (src/src/ast.h) and proofs of its accessor and serialization
contracts.

The repository ships only the header: field declarations, member-initializer
defaults and the inline constructor bodies are taken directly from
src/src/ast.h; the bodies of the out-of-line member functions (getParam,
hasParam, getChild, getFirstChild, getSecondChild, addChildren, getStringVal,
isOperation, toString, toJson) are not part of the provided sources and are
modelled from the specification, as noted on each definition.

Modelling conventions: `tiny::String` (a unicode string, unicode.h not
provided) is modelled as a UTF-8 `String`; `std::int64_t`/`std::uint64_t`
as `Int`/`Nat` (no claim exercises overflow); `long double` as `Float`;
thrown accessor exceptions as `Except` over an explicit error kind.
-/

namespace tiny

/-- Modelled from the spec: `tiny::Metadata` (metadata.h is not among the
provided sources) is an opaque per-node source-location/diagnostic record,
never interpreted structurally by this layer. -/
structure Metadata where
  loc : String := ""
deriving DecidableEq, Repr

/-- `tiny::Value` (src/src/ast.h lines 25-30): a variant over a unicode
string, `std::int64_t`, `std::uint64_t`, `long double` and `bool`, in that
order. A C++ `std::variant` default-constructs to its first alternative, so
the default `Value` is `Text ""`. -/
inductive Value where
  | Text (s : String)
  | SignedInt (i : Int)
  | UnsignedInt (u : Nat)
  | Decimal (d : Float)
  | Bool (b : Bool)

instance : Inhabited Value := ⟨Value.Text ""⟩

/-- Modelled from the spec: the body of the free function
`tiny::toString(Value)` is not among the provided sources. Per the doc
comment at src/src/ast.h lines 32-41 and spec §4.1: Text yields its UTF-8
encoding, numbers their decimal form (`std::to_string`), and booleans
"True"/"False" with the first letter capitalized. -/
def toString (val : Value) : String :=
  match val with
  | .Text s => s
  | .SignedInt i => Int.repr i
  | .UnsignedInt u => Nat.repr u
  | .Decimal d => d.toString
  | .Bool b => if b then "True" else "False"

/-- `enum class ParameterType` (src/src/ast.h lines 45-68), in source order. -/
inductive ParameterType where
  | None
  | «Type»
  | Const
  | Pointer
  | Dereference
  | ValueAt
  | RangeIdentifier
  | ErrorCallback
  | ErrorVarName
  | Name
  | ComputedAccess
deriving DecidableEq, Repr

/-- `struct Parameter` (src/src/ast.h lines 71-111): a role (defaulting to
`None`, line 88) and a value (defaulting like any `tiny::Value`, line 91). -/
structure Parameter where
  type : ParameterType := ParameterType.None
  val : Value := Value.Text ""

/-- `enum class ASTNodeType` (src/src/ast.h lines 114-264), in source order. -/
inductive ASTNodeType where
  | None
  | ExpressionList
  | ExpressionStatement
  | BlockStatement
  | LiteralInt
  | LiteralDecimal
  | LiteralBool
  | LiteralNone
  | LiteralChar
  | LiteralString
  | OpAddition
  | OpSubtraction
  | OpMultiplication
  | OpDivision
  | OpExponentiate
  | Identifier
  | Initialization
  | Assignment
  | AssignmentSum
  | AssignmentSub
  | AssignmentMulti
  | AssignmentDiv
  | VarDeclaration
  | ForStatement
  | RangeExpression
  | RangeFromExpression
  | RangeToExpression
  | RangeStepExpression
  | ForEachExpression
  | IfStatement
  | BranchCondition
  | BranchConsequent
  | BranchAlternative
  | CompareEq
  | CompareNeq
  | CompareGt
  | CompareGteq
  | CompareLt
  | CompareLteq
  | LogicalAnd
  | LogicalOr
  | UnaryNot
  | UnaryNegative
  | ErrorHandle
  | FunctionDeclaration
  | FunctionArgumentDeclList
  | FunctionArgumentDecl
  | FunctionReturnDeclList
  | FunctionReturnDecl
  | FunctionBody
  | FunctionReturn
  | MethodDeclaration
  | MethodType
  | FunctionCall
  | FunctionCallArgumentList
  | «Type»
  | TypedExpression
  | MemberAccess
  | IndexedAccess
  | TraitDeclaration
  | TraitFieldList
  | TraitList
  | Trait
  | StructDeclaration
  | StructField
  | StructFieldList
  | Composition
deriving DecidableEq, Repr

/-- Error kinds of the accessor contracts (spec §7). The C++ raises them as
exceptions; the embedding returns them through `Except`. -/
inductive ASTError where
  | ParameterNotFound
  | ChildNotFound
  | WrongValueKind
deriving DecidableEq, Repr

/-- `struct ASTNode` (src/src/ast.h lines 273-418): a type tag (defaulting to
`None`, line 319), an ordered parameter sequence (line 321), an ordered
children sequence (line 323; the C++ stores `shared_ptr`s, modelled here by
value), metadata (line 325) and a non-optional value (line 327, defaulting
like any `tiny::Value` to `Text ""`). -/
inductive ASTNode where
  | mk (type : ASTNodeType) (params : List Parameter) (children : List ASTNode)
      (meta : Metadata) (val : Value)

def ASTNode.type : ASTNode → ASTNodeType
  | .mk t _ _ _ _ => t

def ASTNode.params : ASTNode → List Parameter
  | .mk _ ps _ _ _ => ps

def ASTNode.children : ASTNode → List ASTNode
  | .mk _ _ cs _ _ => cs

def ASTNode.meta : ASTNode → Metadata
  | .mk _ _ _ m _ => m

def ASTNode.val : ASTNode → Value
  | .mk _ _ _ _ v => v

/-- `ASTNode(meta, t)` (src/src/ast.h line 282, inline): an empty node of the
given type; `params` and `children` start empty and `val` keeps the variant
default `Text ""` (lines 321, 323, 327). -/
def ASTNode.ofType (meta : Metadata) (t : ASTNodeType) : ASTNode :=
  ASTNode.mk t [] [] meta (Value.Text "")

/-- `ASTNode(meta, t, v)` (src/src/ast.h lines 314-316, inline): an empty node
of the given type holding value `v`. -/
def ASTNode.ofVal (meta : Metadata) (t : ASTNodeType) (v : Value) : ASTNode :=
  ASTNode.mk t [] [] meta v

/-- Modelled from the spec: the body of `ASTNode::addChildren(const ASTNode&)`
(declared src/src/ast.h line 397) is not among the provided sources; per spec
§4.3 it appends the node to the end of the children sequence, ownership
transferring to this node (the embedding stores children by value). -/
def ASTNode.addChildren : ASTNode → ASTNode → ASTNode
  | .mk t ps cs m v, c => ASTNode.mk t ps (cs ++ [c]) m v

/-- Modelled from the spec: the body of
`ASTNode::addChildren(const StatementList&)` (declared src/src/ast.h line 403)
is not among the provided sources; per spec §4.3 it appends every node of the
list, preserving its order. (C++ overloads the name; Lean needs a second
one.) -/
def ASTNode.addChildrenList : ASTNode → List ASTNode → ASTNode
  | .mk t ps cs m v, new => ASTNode.mk t ps (cs ++ new) m v

/-- Modelled from the spec: the body of `ASTNode::addParam` (declared
src/src/ast.h line 362) is not among the provided sources; per spec §4.3 it
appends the parameter to the end of the parameter sequence, performing no
uniqueness check. -/
def ASTNode.addParam : ASTNode → Parameter → ASTNode
  | .mk t ps cs m v, p => ASTNode.mk t (ps ++ [p]) cs m v

/-- `ASTNode(meta, t, c1)` (declared src/src/ast.h line 289; body not among
the provided sources): per spec §4.3, a node built with its type and one
initial child. -/
def ASTNode.ofChild (meta : Metadata) (t : ASTNodeType) (c1 : ASTNode) : ASTNode :=
  (ASTNode.ofType meta t).addChildren c1

/-- `ASTNode(meta, t, c1, c2)` (declared src/src/ast.h line 297; body not
among the provided sources): a node built with its type and two initial
children, in order. -/
def ASTNode.ofChild2 (meta : Metadata) (t : ASTNodeType) (c1 c2 : ASTNode) : ASTNode :=
  ((ASTNode.ofType meta t).addChildren c1).addChildren c2

/-- Modelled from the spec: the body of `ASTNode::getParam` (declared
src/src/ast.h lines 341-349) is not among the provided sources; per its doc
comment and spec §4.3 it returns the first Parameter whose role matches and
fails with `ParameterNotFound` when none does. -/
def ASTNode.getParam (n : ASTNode) (t : ParameterType) : Except ASTError Parameter :=
  match n.params.find? (fun p => p.type == t) with
  | some p => Except.ok p
  | none => Except.error ASTError.ParameterNotFound

/-- Modelled from the spec: the body of `ASTNode::hasParam` (declared
src/src/ast.h lines 351-356) is not among the provided sources; per its doc
comment it is a pure membership test on the parameter roles. -/
def ASTNode.hasParam (n : ASTNode) (t : ParameterType) : Bool :=
  n.params.any (fun p => p.type == t)

/-- Modelled from the spec: the body of `ASTNode::getChild` (declared
src/src/ast.h lines 364-373) is not among the provided sources; per its doc
comment and spec §4.3 it returns the first child whose type matches and fails
with `ChildNotFound` when none does. -/
def ASTNode.getChild (n : ASTNode) (t : ASTNodeType) : Except ASTError ASTNode :=
  match n.children.find? (fun c => c.type == t) with
  | some c => Except.ok c
  | none => Except.error ASTError.ChildNotFound

/-- Modelled from the spec: the body of `ASTNode::getFirstChild` (declared
src/src/ast.h lines 375-382) is not among the provided sources; per spec §4.3
it is a positional accessor failing with `ChildNotFound` when the children
sequence is empty. -/
def ASTNode.getFirstChild (n : ASTNode) : Except ASTError ASTNode :=
  match n.children with
  | [] => Except.error ASTError.ChildNotFound
  | c :: _ => Except.ok c

/-- Modelled from the spec: the body of `ASTNode::getSecondChild` (declared
src/src/ast.h lines 384-391) is not among the provided sources; per spec §4.3
it is a positional accessor failing with `ChildNotFound` when the children
sequence has fewer than two elements. -/
def ASTNode.getSecondChild (n : ASTNode) : Except ASTError ASTNode :=
  match n.children with
  | _ :: c :: _ => Except.ok c
  | _ => Except.error ASTError.ChildNotFound

/-- Modelled from the spec: the body of `ASTNode::getStringVal` (declared
src/src/ast.h lines 405-411) is not among the provided sources; per its doc
comment and spec §4.3 it extracts the node's value as Text and fails with
`WrongValueKind` when the value does not hold the Text variant. `val` itself
(line 327) is a plain, non-optional variant, so there is no separate "absent"
state to test for. -/
def ASTNode.getStringVal (n : ASTNode) : Except ASTError String :=
  match n.val with
  | .Text s => Except.ok s
  | _ => Except.error ASTError.WrongValueKind

/-- Modelled from the spec: the body of `ASTNode::isOperation` (declared
src/src/ast.h lines 413-417) is not among the provided sources; per spec §4.3
it is true exactly for the arithmetic, comparison, logical and unary operator
node types, a static property of `type` alone. -/
def ASTNode.isOperation (n : ASTNode) : Bool :=
  match n.type with
  | .OpAddition | .OpSubtraction | .OpMultiplication | .OpDivision
  | .OpExponentiate
  | .CompareEq | .CompareNeq | .CompareGt | .CompareGteq | .CompareLt
  | .CompareLteq
  | .LogicalAnd | .LogicalOr
  | .UnaryNot | .UnaryNegative => true
  | _ => false

/-- The fixed operator types the spec enumerates for `isOperation` (spec §4.3
and §8): arithmetic, comparison, logical and unary operators. -/
def operationTypes : List ASTNodeType :=
  [ASTNodeType.OpAddition, ASTNodeType.OpSubtraction,
   ASTNodeType.OpMultiplication, ASTNodeType.OpDivision,
   ASTNodeType.OpExponentiate,
   ASTNodeType.CompareEq, ASTNodeType.CompareNeq, ASTNodeType.CompareGt,
   ASTNodeType.CompareGteq, ASTNodeType.CompareLt, ASTNodeType.CompareLteq,
   ASTNodeType.LogicalAnd, ASTNodeType.LogicalOr,
   ASTNodeType.UnaryNot, ASTNodeType.UnaryNegative]

/-- A structured interchange form mirroring the shape of the `nlohmann::json`
values the serializers build: null, booleans, strings, ordered arrays and
ordered key-value objects. -/
inductive Json where
  | null
  | bool (b : Bool)
  | str (s : String)
  | arr (elems : List Json)
  | obj (fields : List (String × Json))

/-- Field lookup in an object form; `none` on any other form. -/
def Json.lookup (j : Json) (k : String) : Option Json :=
  match j with
  | .obj fs => (fs.find? (fun f => f.1 == k)).map Prod.snd
  | _ => Option.none

/-- Modelled from the spec: the body of `Parameter::toJson` (declared
src/src/ast.h lines 100-103) is not among the provided sources; per spec §4.2
it is a structured (role, value) projection. -/
def Parameter.toJson (p : Parameter) : Json :=
  Json.obj [("type", Json.str (reprStr p.type)), ("value", Json.str (toString p.val))]

/-- Modelled from the spec: the body of `ASTNode::toJson` (declared
src/src/ast.h lines 335-339) is not among the provided sources; per spec §4.3
it is the recursive structured projection of the node type, the parameter
list, the value and the recursively-projected children, in child order. -/
def ASTNode.toJson : ASTNode → Json
  | .mk t ps cs _ v =>
    Json.obj [("type", Json.str (reprStr t)),
      ("params", Json.arr (ps.map Parameter.toJson)),
      ("value", Json.str (toString v)),
      ("children", Json.arr (cs.attach.map (fun c => ASTNode.toJson c.1)))]
decreasing_by
  have hlt := List.sizeOf_lt_of_mem c.2
  cases c
  simp_all
  omega

/-- `struct Import` (src/src/ast.h lines 421-447): module name and alias are
both plain `tiny::String` fields (lines 438, 440), default-constructed to the
empty string; the alias is not an optional. -/
structure Import where
  mod : String := ""
  «alias» : String := ""
deriving DecidableEq, Repr

/-- `Import(modl)` (src/src/ast.h line 428, inline): the non-aliased
constructor sets `mod` and leaves `alias` at its default. -/
def Import.ofModule (modl : String) : Import :=
  { mod := modl }

/-- `Import(modl, als)` (src/src/ast.h line 435, inline): the aliased
constructor sets both fields. -/
def Import.ofModuleAlias (modl als : String) : Import :=
  { mod := modl, «alias» := als }

/-- `a` is a proper subtree of `b`: it is a child of `b` or, transitively, a
subtree of one of `b`'s children. -/
inductive ProperSubtree : ASTNode → ASTNode → Prop where
  | child {c n : ASTNode} : c ∈ n.children → ProperSubtree c n
  | trans {a b c : ASTNode} : ProperSubtree a b → ProperSubtree b c → ProperSubtree a c

end tiny

namespace tiny

/-- A child is strictly smaller than its parent under the structural size
measure. -/
theorem sizeOf_lt_of_mem_children {c n : ASTNode} (h : c ∈ n.children) :
    sizeOf c < sizeOf n := by
  cases n with
  | mk t ps cs m v =>
    have h1 : sizeOf c < sizeOf cs :=
      List.sizeOf_lt_of_mem (by simpa [ASTNode.children] using h)
    simp only [ASTNode.mk.sizeOf_spec]
    omega

/-- C1 (counterexample to the claim as stated): a node constructed without any
value, `ASTNode(meta, t)`, leaves `val` at the variant default, the Text
variant holding the empty string, so `getStringVal` succeeds and returns ""
instead of failing with `WrongValueKind`. -/
theorem getStringVal_default_node_succeeds :
    (ASTNode.ofType { loc := "" } ASTNodeType.None).getStringVal = Except.ok ""
      ∧ (ASTNode.ofType { loc := "" } ASTNodeType.None).getStringVal
        ≠ Except.error ASTError.WrongValueKind :=
  ⟨rfl, fun h => Except.noConfusion h⟩

/-- C1 (amended): `getStringVal n` succeeds with payload `s` iff `n`'s value
holds the Text variant with payload `s`, and fails with `WrongValueKind` iff
the value holds a different variant; the value is a non-optional variant
defaulting to `Text ""`, so a node constructed without any value falls in the
succeeding case rather than failing. -/
theorem getStringVal_spec (n : ASTNode) :
    (∀ s, n.getStringVal = Except.ok s ↔ n.val = Value.Text s)
      ∧ (n.getStringVal = Except.error ASTError.WrongValueKind
        ↔ ∀ s, n.val ≠ Value.Text s) := by
  cases hv : n.val <;>
    simp [ASTNode.getStringVal, hv]

/-- C6: concrete literal stringification cases: the Bool variant renders with
the first letter capitalized, SignedInt in decimal form, Text verbatim. -/
theorem toString_literal_cases :
    toString (Value.Bool true) = "True" ∧ toString (Value.Bool false) = "False"
      ∧ toString (Value.SignedInt (-5)) = "-5"
      ∧ toString (Value.Text "x") = "x" :=
  ⟨rfl, rfl, rfl, rfl⟩

/-- C10: the non-aliased constructor `Import(m)` yields an alias equal to the
empty string (the alias is a plain string, not an optional), so it is
indistinguishable from an import constructed with an explicitly empty
alias. -/
theorem import_default_alias (m : String) :
    (Import.ofModule m).«alias» = "" ∧ Import.ofModule m = Import.ofModuleAlias m "" :=
  ⟨rfl, rfl⟩

end tiny

namespace tiny

/-- C2: `hasParam` is true exactly when `getParam` succeeds, and when no
parameter of the role is attached `getParam` fails with `ParameterNotFound`
while `hasParam` is false. -/
theorem hasParam_iff_getParam (n : ASTNode) (t : ParameterType) :
    (n.hasParam t = true ↔ ∃ p, n.getParam t = Except.ok p)
      ∧ ((∀ p ∈ n.params, p.type ≠ t)
        ↔ n.getParam t = Except.error ASTError.ParameterNotFound
          ∧ n.hasParam t = false) := by
  unfold ASTNode.getParam ASTNode.hasParam
  cases hf : n.params.find? (fun p => p.type == t) with
  | some p =>
    simp only [hf]
    have hp : p.type = t := by simpa using List.find?_some hf
    have hmem : p ∈ n.params := List.mem_of_find?_eq_some hf
    refine ⟨?_, ?_⟩
    · simp only [List.any_eq_true, beq_iff_eq]
      exact ⟨fun _ => ⟨p, rfl⟩, fun _ => ⟨p, hmem, hp⟩⟩
    · exact ⟨fun hnone => absurd hp (hnone p hmem),
        fun hcontra => Except.noConfusion hcontra.1⟩
  | none =>
    simp only [hf]
    have hall : ∀ p ∈ n.params, p.type ≠ t := by
      intro p hmem
      simpa using List.find?_eq_none.mp hf p hmem
    refine ⟨?_, ?_⟩
    · refine ⟨?_, ?_⟩
      · intro hany
        rcases List.any_eq_true.mp hany with ⟨p, hmem, hbeq⟩
        exact absurd (by simpa using hbeq) (hall p hmem)
      · rintro ⟨p, hp⟩
        exact Except.noConfusion hp
    · refine ⟨?_, fun _ => hall⟩
      intro _
      refine ⟨by trivial, ?_⟩
      simp only [List.any_eq_false, beq_iff_eq]
      exact hall

/-- C3: `getChild n t` succeeds, returning a child of `n` of type `t`, exactly
when some child of `n` has type `t`; otherwise it fails with `ChildNotFound`. -/
theorem getChild_spec (n : ASTNode) (t : ASTNodeType) :
    ((∃ c ∈ n.children, c.type = t)
        ↔ ∃ c, n.getChild t = Except.ok c ∧ c ∈ n.children ∧ c.type = t)
      ∧ ((∀ c ∈ n.children, c.type ≠ t)
        ↔ n.getChild t = Except.error ASTError.ChildNotFound) := by
  unfold ASTNode.getChild
  cases hf : n.children.find? (fun c => c.type == t) with
  | some c =>
    simp only [hf]
    have hc : c.type = t := by simpa using List.find?_some hf
    have hmem : c ∈ n.children := List.mem_of_find?_eq_some hf
    exact ⟨⟨fun _ => ⟨c, rfl, hmem, hc⟩, fun _ => ⟨c, hmem, hc⟩⟩,
      ⟨fun hnone => absurd hc (hnone c hmem),
        fun hcontra => Except.noConfusion hcontra⟩⟩
  | none =>
    simp only [hf]
    have hall : ∀ c ∈ n.children, c.type ≠ t := by
      intro c hcmem
      simpa using List.find?_eq_none.mp hf c hcmem
    refine ⟨⟨?_, ?_⟩, ⟨fun _ => by trivial, fun _ => hall⟩⟩
    · rintro ⟨c, hmem, hc⟩
      exact absurd hc (hall c hmem)
    · rintro ⟨c, hok, -, -⟩
      exact Except.noConfusion hok

/-- C4: the positional accessors fail with `ChildNotFound` exactly when the
children sequence has fewer than 1 (resp. 2) elements, and otherwise return
the element at position 1 (resp. 2), regardless of its type. -/
theorem positional_child_spec (n c : ASTNode) :
    (n.getFirstChild = Except.error ASTError.ChildNotFound
        ↔ n.children.length < 1)
      ∧ (n.getSecondChild = Except.error ASTError.ChildNotFound
        ↔ n.children.length < 2)
      ∧ (n.getFirstChild = Except.ok c ↔ n.children[0]? = some c)
      ∧ (n.getSecondChild = Except.ok c ↔ n.children[1]? = some c) := by
  unfold ASTNode.getFirstChild ASTNode.getSecondChild
  match hcs : n.children with
  | [] => simp [hcs]
  | [a] => simp [hcs]
  | a :: b :: rest => simp [hcs]

/-- C5: `isOperation` is true exactly when the node's type is among the fixed
operator types the spec enumerates, for every member of the type enumeration,
independent of the node's params, children, metadata or value. -/
theorem isOperation_iff_operationTypes (t : ASTNodeType) (ps : List Parameter)
    (cs : List ASTNode) (m : Metadata) (v : Value) :
    (ASTNode.mk t ps cs m v).isOperation = true ↔ t ∈ operationTypes := by
  cases t <;> simp [ASTNode.isOperation, ASTNode.type, operationTypes]

/-- C7: the interchange-form projection of any node lists the recursively
projected children in exactly the children-sequence order; as this holds for
every node it holds recursively at every level of a tree of arbitrary depth. -/
theorem toJson_children_in_order (n : ASTNode) :
    (ASTNode.toJson n).lookup "children"
      = some (Json.arr (n.children.map ASTNode.toJson)) := by
  cases n with
  | mk t ps cs m v =>
    rw [ASTNode.toJson]
    simp [Json.lookup, List.find?, ASTNode.children, List.attach_map_val]

/-- C8: both `addChildren` forms append to the end of the children sequence,
preserving order, leaving the existing children unchanged and in place, and
leaving every other field of the node unchanged; the appended nodes are held
by value inside the parent. -/
theorem addChildren_appends (n c : ASTNode) (cs : List ASTNode) :
    (n.addChildren c).children = n.children ++ [c]
      ∧ (n.addChildrenList cs).children = n.children ++ cs
      ∧ (n.addChildren c).children.take n.children.length = n.children
      ∧ (n.addChildrenList cs).children.take n.children.length = n.children
      ∧ (n.addChildren c).type = n.type ∧ (n.addChildren c).params = n.params
      ∧ (n.addChildren c).val = n.val ∧ (n.addChildren c).meta = n.meta
      ∧ (n.addChildrenList cs).type = n.type
      ∧ (n.addChildrenList cs).params = n.params
      ∧ (n.addChildrenList cs).val = n.val
      ∧ (n.addChildrenList cs).meta = n.meta := by
  cases n with
  | mk t ps cs0 m v =>
    simp [ASTNode.addChildren, ASTNode.addChildrenList, ASTNode.children,
      ASTNode.type, ASTNode.params, ASTNode.val, ASTNode.meta, List.take_left]

/-- C9: the tree is acyclic: no node is a proper subtree of itself (children
are stored by value inside their parent, so subtrees are never shared between
two parents in the embedding). -/
theorem no_node_is_proper_subtree_of_itself (n : ASTNode) : ¬ ProperSubtree n n := by
  have key : ∀ a b : ASTNode, ProperSubtree a b → sizeOf a < sizeOf b := by
    intro a b h
    induction h with
    | child hmem => exact sizeOf_lt_of_mem_children hmem
    | trans h1 h2 ih1 ih2 => exact lt_trans ih1 ih2
  intro h
  exact lt_irrefl (sizeOf n) (key n n h)

end tiny
